import Mathlib

/-!
Verification development for the okos-polip arduino device client
(`polip-client.cpp` / `polip-device.cpp`, `polip-workflow.cpp`,
`polip-rpc-workflow.cpp`).  The C sources are shallowly embedded: the
JSON documents of ArduinoJson become an inductive `Json` value, the
mutable `polip_device_t` / workflow objects become records threaded
through pure functions, network exchanges become explicit response
inputs, and the HMAC tag primitive (out of scope per the spec) becomes a
function parameter `tagFn`.
-/

namespace Polip

/-- Return codes of `polip_ret_code_t` (polip-client.hpp). -/
inductive RetCode where
  | ok
  | errorTagMismatch
  | errorValueMismatch
  | errorResponseDeserialization
  | errorServerError
  | errorLibRequest
  | errorWorkflow
deriving DecidableEq, Repr

/-- Modulus of the 32-bit unsigned arithmetic used for `dev->value`
(`uint32_t`) and the millisecond timers (`unsigned long` on ESP8266). -/
def UINT32_MOD : Nat := 2 ^ 32

/-- Shallow model of an ArduinoJson document. -/
inductive Json where
  | null : Json
  | bool : Bool → Json
  | num : Int → Json
  | str : String → Json
  | arr : List Json → Json
  | obj : List (String × Json) → Json

/-- Field lookup in an object member list: first binding wins. -/
def lookupField : List (String × Json) → String → Option Json
  | [], _ => none
  | (k, v) :: rest, key => if k = key then some v else lookupField rest key

/-- Replace the first binding of `key` (or append one), as ArduinoJson
member assignment does. -/
def setField : List (String × Json) → String → Json → List (String × Json)
  | [], key, v => [(key, v)]
  | (k, w) :: rest, key, v =>
      if k = key then (k, v) :: rest else (k, w) :: setField rest key v

/-- Model of `doc.containsKey(k)`. -/
def Json.containsKey : Json → String → Bool
  | .obj fs, k => (lookupField fs k).isSome
  | _, _ => false

/-- Member read `doc[k]`; absent members read as null. -/
def Json.getKey : Json → String → Json
  | .obj fs, k => (lookupField fs k).getD Json.null
  | _, _ => Json.null

/-- Member assignment `doc[k] = v`; assigning a member to a non-object root converts the
root to an object holding that member. -/
def Json.setKey : Json → String → Json → Json
  | .obj fs, k, v => .obj (setField fs k v)
  | _, k, v => .obj [(k, v)]

/-- Member read `doc[k]` as a C string (`const char*`); a missing or
non-string member yields the empty string. -/
def Json.getStr (j : Json) (k : String) : String :=
  match j.getKey k with
  | .str s => s
  | _ => ""

/-- Model of `doc.as<String>()` as used in `_requestTemplate`, where the
result is only compared for equality against the literal
`"value invalid"`.  A string-rooted document yields its contents; any
other root serializes to a JSON literal (`null`, `true`, a numeral, or a
bracketed composite), none of which can equal that phrase, so composites
are represented by their opening character. -/
def Json.asString : Json → String
  | .str s => s
  | .null => "null"
  | .bool b => if b then "true" else "false"
  | .num n => toString n
  | .arr _ => "["
  | .obj _ => "\x7b"

/-- Device record `polip_device_t` (polip-client.hpp).  The secret key enters the
model only through the abstracted tag primitive, so `keyStr`/`keyStrLen`
are not carried. -/
structure Device where
  value : Nat
  skipTagCheck : Bool
  serialStr : String
  hardwareStr : String
  firmwareStr : String
deriving DecidableEq, Repr

/-- Packed result of `_sendPostRequest` (`_ret_t`) together with the
response document it deserialized into `doc`: HTTP status of the POST
and the deserializer error flag (`true` means deserialization failed). -/
structure SendResult where
  httpCode : Int
  jsonCode : Bool
  doc : Json

/-- Request packing `_packRequest` (polip-client.cpp): writes the identity fields, the
timestamp, optionally the sequence `value`, and optionally the
authentication `tag` (computed by `_computeTag`, abstracted as `tagFn`,
over the document with `tag` set to the placeholder `"0"`). -/
def packRequest (tagFn : Json → String) (dev : Device) (doc : Json)
    (timestamp : String) (skipValue skipTag : Bool) : Json :=
  let d := doc.setKey "serial" (Json.str dev.serialStr)
  let d := d.setKey "firmware" (Json.str dev.firmwareStr)
  let d := d.setKey "hardware" (Json.str dev.hardwareStr)
  let d := d.setKey "timestamp" (Json.str timestamp)
  let d := if skipValue then d else d.setKey "value" (Json.num dev.value)
  if skipTag then d
  else
    let d := d.setKey "tag" (Json.str "0")
    if dev.skipTagCheck then d else d.setKey "tag" (Json.str (tagFn d))

/-- Exchange template `_requestTemplate` (polip-client.cpp lines 379-412; the copy in
polip-device.cpp lines 606-639 is identical): classifies the exchange
result and increments the device sequence value on full success when the
value was included.  The network response is the explicit input `ret`;
returns the result code, the updated device, and the response document
(after the tag-recomputation side effect). -/
def zeroedTagDoc (d : Json) : Json :=
  d.setKey "tag" (Json.str "0")

/-- Body of the tag-verification step of `_requestTemplate`: `oldTag`
saved, `tag` zeroed, `_computeTag` recomputes over the zeroed document
and stores the digest back into `tag`. -/
def recomputedTagDoc (tagFn : Json → String) (d : Json) : Json :=
  (zeroedTagDoc d).setKey "tag" (Json.str (tagFn (zeroedTagDoc d)))

def requestTemplate (tagFn : Json → String) (dev : Device) (ret : SendResult)
    (skipValue skipTag : Bool) : RetCode × Device × Json :=
  if ret.jsonCode then
    (RetCode.errorResponseDeserialization, dev, ret.doc)
  else if ret.httpCode ≠ 200 then
    if ret.doc.asString = "value invalid" then
      (RetCode.errorValueMismatch, dev, ret.doc)
    else
      (RetCode.errorServerError, dev, ret.doc)
  else if !skipTag && !dev.skipTagCheck then
    if ret.doc.getStr "tag" ≠ tagFn (zeroedTagDoc ret.doc) then
      (RetCode.errorTagMismatch, dev, recomputedTagDoc tagFn ret.doc)
    else if skipValue then
      (RetCode.ok, dev, recomputedTagDoc tagFn ret.doc)
    else
      (RetCode.ok, { dev with value := (dev.value + 1) % UINT32_MOD },
        recomputedTagDoc tagFn ret.doc)
  else if skipValue then
    (RetCode.ok, dev, ret.doc)
  else
    (RetCode.ok, { dev with value := (dev.value + 1) % UINT32_MOD }, ret.doc)

/-! ## Sync workflow (`polip_workflow_periodic_update`)

Model of the five-action tick of polip-client.cpp lines 53-247 (the
polip-workflow.cpp draft at lines 48-229 shares the same guard and
ordering structure for the push-state / poll-state / push-sense /
get-value actions; its first action delegates to the RPC workflow).  The
hooks only receive the device and the scratch document, so they cannot
touch the workflow flags or timers and are dropped from the state
evolution; the network results of the (at most five) exchanges of one
tick are the explicit `TickEnv` input.  Times are `unsigned long`
(32-bit) milliseconds; the timer comparisons use wrapping subtraction. -/

/-- Sync actions a tick can execute, in evaluation order. -/
inductive WAction where
  | pushRPC
  | pushState
  | pollState
  | pushSense
  | getValue
deriving DecidableEq, Repr

/-- Workflow parameters `_polip_workflow_params`, the fields that influence control flow. -/
structure WorkflowParams where
  onlyOneEvent : Bool
  pushSensePeriodic : Bool
  pollStateTimeThreshold : Nat
  pushSenseTimeThreshold : Nat
deriving DecidableEq, Repr

/-- Workflow flags `_polip_workflow_flags`. -/
structure WorkflowFlags where
  stateChanged : Bool
  senseChanged : Bool
  rpcChanged : Bool
  getValue : Bool
  error : RetCode
deriving DecidableEq, Repr

/-- Workflow timers `_polip_workflow_timers`. -/
structure WorkflowTimers where
  pollTime : Nat
  senseTime : Nat
deriving DecidableEq, Repr

/-- Results the server returns for each exchange a tick can issue. -/
structure TickEnv where
  pushRPCResult : RetCode
  pushStateResult : RetCode
  pollStateResult : RetCode
  pushSenseResult : RetCode
  getValueResult : RetCode
deriving DecidableEq, Repr

/-- Running state of one `polip_workflow_periodic_update` call:
workflow flags and timers plus the locals `eventCount` and `retStatus`,
and the trace of actions executed so far. -/
structure TickState where
  flags : WorkflowFlags
  timers : WorkflowTimers
  eventCount : Nat
  retStatus : RetCode
  executed : List WAction
deriving DecidableEq, Repr

/-- Wrapping 32-bit unsigned subtraction `a - b` used by the timer
checks (`currentTime_ms - wkObj->timers.pollTime`). -/
def usub32 (a b : Nat) : Nat :=
  (a % UINT32_MOD + UINT32_MOD - b % UINT32_MOD) % UINT32_MOD

/-- Closing `eventCount++` of an executed action block, recording the
action in the trace. -/
def bump (x : WAction) (t : TickState) : TickState :=
  { t with eventCount := t.eventCount + 1, executed := t.executed ++ [x] }

/-- Push-RPC action (polip-client.cpp lines 58-95). -/
def stepPushRPC (p : WorkflowParams) (env : TickEnv) (t : TickState) : TickState :=
  if t.flags.rpcChanged ∧ ¬ (p.onlyOneEvent ∧ t.flags.getValue ∧ 1 ≤ t.eventCount) then
    bump WAction.pushRPC
      (if env.pushRPCResult = RetCode.errorValueMismatch then
        { t with flags := { t.flags with getValue := true } }
      else if env.pushRPCResult = RetCode.ok then
        { t with flags := { t.flags with rpcChanged := false } }
      else
        { t with flags := { t.flags with error := env.pushRPCResult },
                 retStatus := RetCode.errorWorkflow })
  else t

/-- Push-state action (polip-client.cpp lines 97-135). -/
def stepPushState (p : WorkflowParams) (env : TickEnv) (now : Nat) (t : TickState) : TickState :=
  if t.flags.stateChanged ∧ ¬ (p.onlyOneEvent ∧ t.flags.getValue ∧ 1 ≤ t.eventCount) then
    bump WAction.pushState
      (if env.pushStateResult = RetCode.errorValueMismatch then
        { t with flags := { t.flags with getValue := true } }
      else if env.pushStateResult = RetCode.ok then
        { t with flags := { t.flags with stateChanged := false },
                 timers := { t.timers with pollTime := now } }
      else
        { t with flags := { t.flags with error := env.pushStateResult },
                 retStatus := RetCode.errorWorkflow })
  else t

/-- Poll-state action (polip-client.cpp lines 137-177). -/
def stepPollState (p : WorkflowParams) (env : TickEnv) (now : Nat) (t : TickState) : TickState :=
  if ¬ t.flags.stateChanged ∧ p.pollStateTimeThreshold ≤ usub32 now t.timers.pollTime ∧
      ¬ (p.onlyOneEvent ∧ t.flags.getValue ∧ 1 ≤ t.eventCount) then
    bump WAction.pollState
      (if env.pollStateResult = RetCode.errorValueMismatch then
        { t with flags := { t.flags with getValue := true } }
      else if env.pollStateResult = RetCode.ok then
        { t with timers := { t.timers with pollTime := now } }
      else
        { t with flags := { t.flags with error := env.pollStateResult },
                 retStatus := RetCode.errorWorkflow })
  else t

/-- Push-sensors action (polip-client.cpp lines 179-217). -/
def stepPushSense (p : WorkflowParams) (env : TickEnv) (now : Nat) (t : TickState) : TickState :=
  if (t.flags.senseChanged ∨
        (p.pushSensePeriodic ∧ p.pushSenseTimeThreshold ≤ usub32 now t.timers.senseTime)) ∧
      ¬ (p.onlyOneEvent ∧ t.flags.getValue ∧ 1 ≤ t.eventCount) then
    bump WAction.pushSense
      (if env.pushSenseResult = RetCode.errorValueMismatch then
        { t with flags := { t.flags with getValue := true } }
      else if env.pushSenseResult = RetCode.ok then
        { t with timers := { t.timers with senseTime := now } }
      else
        { t with flags := { t.flags with error := env.pushSenseResult },
                 retStatus := RetCode.errorWorkflow })
  else t

/-- Get-value (resynchronize) action (polip-client.cpp lines 219-244):
clears `flags.getValue` before issuing the request. -/
def stepGetValue (p : WorkflowParams) (env : TickEnv) (t : TickState) : TickState :=
  if t.flags.getValue ∧ ¬ (p.onlyOneEvent ∧ 1 ≤ t.eventCount) then
    bump WAction.getValue
      (if env.getValueResult ≠ RetCode.ok then
        { t with flags := { t.flags with getValue := false, error := env.getValueResult },
                 retStatus := RetCode.errorWorkflow }
      else
        { t with flags := { t.flags with getValue := false } })
  else t

/-- Tick function `polip_workflow_periodic_update` (polip-client.cpp lines 53-247):
the five actions evaluated in order on a fresh tick
(`eventCount = 0`, `retStatus = POLIP_OK`). -/
def polip_workflow_periodic_update (p : WorkflowParams) (env : TickEnv)
    (flags : WorkflowFlags) (timers : WorkflowTimers) (now : Nat) : TickState :=
  stepGetValue p env
    (stepPushSense p env now
      (stepPollState p env now
        (stepPushState p env now
          (stepPushRPC p env ⟨flags, timers, 0, RetCode.ok, []⟩))))

/-- Whether an ordinary sync request appears strictly before the first
get-value request of the trace. -/
def ordinaryIssuedBeforeGetValue (l : List WAction) : Bool :=
  (l.takeWhile (fun a => a ≠ WAction.getValue)).any
    (fun a => a = WAction.pushState || a = WAction.pollState || a = WAction.pushSense)

/-! ## RPC workflow (`polip-rpc-workflow.cpp`)

The arena of `polip_rpc_t` records is embedded as two lists threaded
through the workflow state: `active` and `free` stand for the intrusive
linked lists rooted at `_activePtr` / `_freePtr` (list order = link
order, head = list head).  A record is identified inside `free_rpc` by
its position in the active list, which mirrors pointer identity for the
distinct arena nodes.  The record-content hooks (`newRPC`, `freeRPC`)
receive only the device and record, cannot reach the list structure or
counters, and are dropped; `shouldDeleteExtraRPC` and the status-push
network outcome (`polip_rpc_workflow_push_status`, whose result is the
code of its `polip_pushRPC` exchange) are explicit inputs. -/

def POLIP_RPC_UUID_BUFFER_SIZE : Nat := 50

def POLIP_RPC_TYPE_BUFFER_SIZE : Nat := 50

/-- Status enumeration `polip_rpc_status_t`; `unknown` is the `_RPC_STATUS_UNKNOWN`
sentinel. -/
inductive RpcStatus where
  | pending
  | success
  | failure
  | rejected
  | acknowledged
  | canceled
  | unknown
deriving DecidableEq, Repr

/-- Record `polip_rpc_t` (polip-rpc-workflow.hpp): `nextStatus` is the
`_nextStatus` field, `checked` the `_checked` control bit.  The opaque
`userContext` handle and the intrusive `_nextPtr` link are represented
by the record's position in the state lists. -/
structure RPC where
  status : RpcStatus
  uuid : String
  type : String
  nextStatus : RpcStatus
  checked : Bool
deriving DecidableEq, Repr

/-- Field defaults of a freshly allocated `polip_rpc_t`. -/
def RPC.initial : RPC :=
  { status := RpcStatus.unknown, uuid := "", type := "",
    nextStatus := RpcStatus.unknown, checked := false }

/-- Control state of `polip_rpc_workflow_t`: the `shouldPeriodicUpdate`
flag plus `_polip_rpc_workflow_state`. -/
structure RpcWorkflowState where
  shouldPeriodicUpdate : Bool
  allowingNewRPCs : Bool
  numActiveRPCs : Nat
  active : List RPC
  free : List RPC
  masterCheckedBit : Bool
deriving DecidableEq, Repr

/-- Arena invariant of a well-formed workflow: the active count tracks
the active list and the two lists partition the fixed capacity. -/
def RpcWorkflowState.wf (st : RpcWorkflowState) (capacity : Nat) : Prop :=
  st.numActiveRPCs = st.active.length ∧
  st.active.length + st.free.length = capacity

/-- Initialization `polip_rpc_workflow_initialize` (polip-rpc-workflow.cpp lines
24-45): allocates `maxActivedRPCs` records, all on the free list, and
zeroes the active bookkeeping (struct defaults: admission open, master
checked bit false). -/
def polip_rpc_workflow_initialize (capacity : Nat) : RpcWorkflowState :=
  { shouldPeriodicUpdate := false, allowingNewRPCs := true,
    numActiveRPCs := 0, active := [],
    free := List.replicate capacity RPC.initial, masterCheckedBit := false }

/-- Acquisition `polip_rpc_workflow_new_rpc` (polip-rpc-workflow.cpp lines
293-321): fails when the free list is exhausted, or when the uuid or
type string (plus NUL) exceeds `POLIP_RPC_TYPE_BUFFER_SIZE` — the
source guards the uuid against the type-buffer constant.  Otherwise the
head free record is moved to the head of the active list and
repopulated. -/
def polip_rpc_workflow_new_rpc (st : RpcWorkflowState) (status : RpcStatus)
    (uuid ty : String) : Option (RPC × RpcWorkflowState) :=
  match st.free with
  | [] => none
  | _ :: rest =>
    if POLIP_RPC_TYPE_BUFFER_SIZE < uuid.length + 1 ∨
        POLIP_RPC_TYPE_BUFFER_SIZE < ty.length + 1 then
      none
    else
      let r : RPC := { status := status, uuid := uuid, type := ty,
                       nextStatus := status, checked := st.masterCheckedBit }
      some (r, { st with
        free := rest,
        active := r :: st.active,
        numActiveRPCs := st.numActiveRPCs + 1 })

/-- Release `polip_rpc_workflow_free_rpc` (polip-rpc-workflow.cpp lines
323-359) on the record at position `i` of the active list: fails on an
empty active list or a record not in it; otherwise unlinks the record,
pushes it on the free list and decrements the count. -/
def polip_rpc_workflow_free_rpc (st : RpcWorkflowState) (i : Nat) :
    Bool × RpcWorkflowState :=
  match st.active with
  | [] => (false, st)
  | _ :: _ =>
    if h : i < st.active.length then
      (true, { st with
          active := st.active.eraseIdx i,
          free := st.active.get ⟨i, h⟩ :: st.free,
          numActiveRPCs := st.numActiveRPCs - 1 })
    else (false, st)

/-- Repeated acquisition through `polip_rpc_workflow_new_rpc`,
threading the state; `none` as soon as one acquisition fails. -/
def acquireRepeat (status : RpcStatus) (uuid ty : String) :
    Nat → RpcWorkflowState → Option RpcWorkflowState
  | 0, st => some st
  | n + 1, st =>
    match polip_rpc_workflow_new_rpc st status uuid ty with
    | none => none
    | some r => acquireRepeat status uuid ty n r.2

/-- Hook table subset of `_polip_rpc_workflow_hooks` that influences
the periodic-update control flow; `none` models a NULL
`shouldDeleteExtraRPC` pointer. -/
structure RpcHooks where
  shouldDeleteExtraRPC : Option (RPC → Bool)

/-- Outcome of one loop iteration of
`polip_rpc_workflow_periodic_update` on one active record: the record
as kept in the active list (or `none` if freed), the freed record (for
the free list), the `eventCount` increase, and the value assigned to
`polipCode` during the iteration, if any. -/
structure EntryResult where
  kept : Option RPC
  freedRec : Option RPC
  events : Nat
  code : Option RetCode

/-- Status-push half of the loop body (polip-rpc-workflow.cpp lines
99-145): `entry->status` is overwritten with `_nextStatus`, the status
pushed (`pushResp` is the outcome of `polip_rpc_workflow_push_status`),
and on `POLIP_OK` the post-push transition applies: a `canceled` prior
status goes to `pending`/`pending` on a `rejected` push or is freed on
an `acknowledged` push; otherwise a terminal pushed status
(`success`/`failure`/`rejected`) is freed, and an `unknown` pushed
status is freed with `POLIP_ERROR_WORKFLOW`. -/
def pushStep (pushResp : RPC → RetCode) (e1 : RPC) (ev : Nat) : EntryResult :=
  let e2 : RPC := { e1 with status := e1.nextStatus }
  let r := pushResp e2
  if r = RetCode.ok then
    if e1.status = RpcStatus.canceled then
      if e2.status = RpcStatus.rejected then
        ⟨some { e2 with status := RpcStatus.pending, nextStatus := RpcStatus.pending },
          none, ev + 1, some r⟩
      else if e2.status = RpcStatus.acknowledged then
        ⟨none, some e2, ev + 1, some r⟩
      else
        ⟨some e2, none, ev + 1, some r⟩
    else if e2.status = RpcStatus.success ∨ e2.status = RpcStatus.failure ∨
        e2.status = RpcStatus.rejected then
      ⟨none, some e2, ev + 1, some r⟩
    else if e2.status = RpcStatus.unknown then
      ⟨none, some e2, ev + 1, some RetCode.errorWorkflow⟩
    else
      ⟨some e2, none, ev + 1, some r⟩
  else
    ⟨some e2, none, ev + 1, some r⟩

/-- One loop iteration of `polip_rpc_workflow_periodic_update`
(polip-rpc-workflow.cpp lines 68-147) on one active record: first the
checked-bit sweep (a record missed by the last poll is freed — with
`POLIP_ERROR_WORKFLOW` when no `shouldDeleteExtraRPC` hook is
configured, silently when the hook approves — or kept with its bit
realigned when the hook refuses), then, if the record survived and a
status change is pending, the status push of `pushStep`. -/
def processEntry (hooks : RpcHooks) (pushResp : RPC → RetCode) (masterBit : Bool)
    (entry : RPC) : EntryResult :=
  if entry.checked ≠ masterBit then
    match hooks.shouldDeleteExtraRPC with
    | some f =>
      if f entry then ⟨none, some entry, 1, none⟩
      else
        let e1 : RPC := { entry with checked := masterBit }
        if e1.status ≠ e1.nextStatus then pushStep pushResp e1 1
        else ⟨some e1, none, 1, none⟩
    | none => ⟨none, some entry, 1, some RetCode.errorWorkflow⟩
  else
    if entry.status ≠ entry.nextStatus then pushStep pushResp entry 0
    else ⟨some entry, none, 0, none⟩

/-- Accumulator of the periodic-update loop: records kept so far (in
reverse processing order), records freed so far (most recent first, as
`free_rpc` pushes on the free-list head), the running `eventCount` and
the running `polipCode`. -/
structure LoopAcc where
  kept : List RPC
  freed : List RPC
  eventCount : Nat
  code : RetCode
deriving DecidableEq, Repr

/-- The `while` loop of `polip_rpc_workflow_periodic_update`: entries
are visited in active-list order (the iteration pointer is saved before
any unlink); with `singleEvent` the loop stops early once an event ran
and the running code is `POLIP_OK`.  Returns the unprocessed remainder
of the list and the final accumulator. -/
def periodicLoop (hooks : RpcHooks) (pushResp : RPC → RetCode) (masterBit : Bool)
    (singleEvent : Bool) : List RPC → LoopAcc → List RPC × LoopAcc
  | [], acc => ([], acc)
  | e :: rest, acc =>
    if singleEvent ∧ 1 ≤ acc.eventCount ∧ acc.code = RetCode.ok then
      (e :: rest, acc)
    else
      periodicLoop hooks pushResp masterBit singleEvent rest
        { kept :=
            match (processEntry hooks pushResp masterBit e).kept with
            | some e1 => e1 :: acc.kept
            | none => acc.kept,
          freed :=
            match (processEntry hooks pushResp masterBit e).freedRec with
            | some e1 => e1 :: acc.freed
            | none => acc.freed,
          eventCount := acc.eventCount + (processEntry hooks pushResp masterBit e).events,
          code := ((processEntry hooks pushResp masterBit e).code).getD acc.code }

/-- Periodic update `polip_rpc_workflow_periodic_update` (polip-rpc-workflow.cpp lines
60-151): clears `shouldPeriodicUpdate`, walks the active list and
returns the final `polipCode`.  Kept records stay in list order; freed
records move to the free list; the active count drops by the number of
freed records (each successful `free_rpc` decrements it once). -/
def polip_rpc_workflow_periodic_update (hooks : RpcHooks)
    (pushResp : RPC → RetCode) (singleEvent : Bool) (st : RpcWorkflowState) :
    RpcWorkflowState × RetCode :=
  let res := periodicLoop hooks pushResp st.masterCheckedBit singleEvent st.active
    ⟨[], [], 0, RetCode.ok⟩
  ({ st with
      shouldPeriodicUpdate := false,
      active := res.2.kept.reverse ++ res.1,
      free := res.2.freed ++ st.free,
      numActiveRPCs := st.numActiveRPCs - res.2.freed.length }, res.2.code)

/-! ## push-RPC document construction (`polip_pushRPC`) -/

/-- Required-field validation shared by both `polip_pushRPC` variants:
the document must carry `rpc.uuid`, `rpc.result` and `rpc.status`
(otherwise `POLIP_ERROR_LIB_REQUEST`, no request is sent). -/
def pushRPCFieldsOk (doc : Json) : Bool :=
  doc.containsKey "rpc" && (doc.getKey "rpc").containsKey "uuid"
    && (doc.getKey "rpc").containsKey "result"
    && (doc.getKey "rpc").containsKey "status"

/-- Document handed to `_packRequest`/`_requestTemplate` by the
polip-client.cpp variant of `polip_pushRPC` (lines 337-352): the caller
document is forwarded unchanged — no `rpc.timestamp` autofill. -/
def polip_pushRPC_sent_doc_client (tagFn : Json → String) (dev : Device)
    (doc : Json) (timestamp : String) : Option Json :=
  if pushRPCFieldsOk doc then
    some (packRequest tagFn dev doc timestamp false false)
  else none

/-- Document sent by the polip-device.cpp variant of `polip_pushRPC`
(lines 559-579 of the concatenated polip-rpc-workflow.cpp source):
`rpc.timestamp` is auto-filled with the caller-supplied timestamp when
absent, and left untouched when present. -/
def polip_pushRPC_sent_doc_device (tagFn : Json → String) (dev : Device)
    (doc : Json) (timestamp : String) : Option Json :=
  if pushRPCFieldsOk doc then
    if (doc.getKey "rpc").containsKey "timestamp" then
      some (packRequest tagFn dev doc timestamp false false)
    else
      some (packRequest tagFn dev
        (doc.setKey "rpc" ((doc.getKey "rpc").setKey "timestamp" (Json.str timestamp)))
        timestamp false false)
  else none

/-! ## Theorems -/

theorem succ_mod32_ne_self (v : Nat) (h : v < UINT32_MOD) :
    (v + 1) % UINT32_MOD ≠ v := by
  unfold UINT32_MOD at h ⊢
  omega

/-- C1: for every exchange through `_requestTemplate` with `skipValue`
false, the device counter `dev->value` is incremented by exactly 1
(mod 2^32) if and only if the exchange returns `POLIP_OK`; any non-OK
classification (deserialization failure, value mismatch, tag mismatch,
server error) leaves `dev->value` unchanged. -/
theorem requestTemplate_value_increment_iff_ok
    (tagFn : Json → String) (dev : Device) (ret : SendResult) (skipTag : Bool)
    (h : dev.value < UINT32_MOD) :
    ((requestTemplate tagFn dev ret false skipTag).1 = RetCode.ok ↔
      (requestTemplate tagFn dev ret false skipTag).2.1.value
        = (dev.value + 1) % UINT32_MOD) ∧
    ((requestTemplate tagFn dev ret false skipTag).1 ≠ RetCode.ok →
      (requestTemplate tagFn dev ret false skipTag).2.1.value = dev.value) := by
  have hne := succ_mod32_ne_self dev.value h
  have hne' : dev.value ≠ (dev.value + 1) % UINT32_MOD := fun e => hne e.symm
  unfold requestTemplate
  split
  · simp_all
  · split
    · split <;> simp_all
    · split
      · split
        · simp_all
        · split <;> simp_all
      · split <;> simp_all

/-- Witness for C1: a concrete successful exchange increments the value
from 5 to 6, via the theorem. -/
theorem requestTemplate_value_increment_witness :
    (requestTemplate (fun _ => "t")
      ⟨5, true, "s", "h", "f"⟩ ⟨200, false, Json.null⟩ false true).2.1.value = 6 := by
  have h := requestTemplate_value_increment_iff_ok (fun _ => "t")
    ⟨5, true, "s", "h", "f"⟩ ⟨200, false, Json.null⟩ true (by norm_num [UINT32_MOD])
  have hok : (requestTemplate (fun _ => "t")
      ⟨5, true, "s", "h", "f"⟩ ⟨200, false, Json.null⟩ false true).1 = RetCode.ok := rfl
  have hv := h.1.mp hok
  rw [hv]
  norm_num [UINT32_MOD]

/-- C4: error classification order of `_requestTemplate`: a response
body that fails to deserialize yields `POLIP_ERROR_RESPONSE_DESERIALIZATION`
(regardless of HTTP status); otherwise a non-200 status whose body reads
as `"value invalid"` yields `POLIP_ERROR_VALUE_MISMATCH`; otherwise a
non-200 status yields `POLIP_ERROR_SERVER_ERROR`. -/
theorem requestTemplate_error_classification
    (tagFn : Json → String) (dev : Device) (ret : SendResult)
    (skipValue skipTag : Bool) :
    (ret.jsonCode = true →
      (requestTemplate tagFn dev ret skipValue skipTag).1
        = RetCode.errorResponseDeserialization) ∧
    (ret.jsonCode = false → ret.httpCode ≠ 200 →
      ret.doc.asString = "value invalid" →
      (requestTemplate tagFn dev ret skipValue skipTag).1
        = RetCode.errorValueMismatch) ∧
    (ret.jsonCode = false → ret.httpCode ≠ 200 →
      ret.doc.asString ≠ "value invalid" →
      (requestTemplate tagFn dev ret skipValue skipTag).1
        = RetCode.errorServerError) := by
  unfold requestTemplate
  refine ⟨fun hj => ?_, fun hj hh hv => ?_, fun hj hh hv => ?_⟩
  · simp [hj]
  · simp [hj, hh, hv]
  · simp [hj, hh, hv]

/-- Witness for C4: the three classifications at concrete responses. -/
theorem requestTemplate_error_classification_witness :
    (requestTemplate (fun _ => "t") ⟨0, true, "s", "h", "f"⟩
        ⟨200, true, Json.null⟩ false true).1
      = RetCode.errorResponseDeserialization ∧
    (requestTemplate (fun _ => "t") ⟨0, true, "s", "h", "f"⟩
        ⟨400, false, Json.str "value invalid"⟩ false true).1
      = RetCode.errorValueMismatch ∧
    (requestTemplate (fun _ => "t") ⟨0, true, "s", "h", "f"⟩
        ⟨500, false, Json.str "boom"⟩ false true).1
      = RetCode.errorServerError := by
  refine ⟨?_, ?_, ?_⟩
  · exact (requestTemplate_error_classification (fun _ => "t")
      ⟨0, true, "s", "h", "f"⟩ ⟨200, true, Json.null⟩ false true).1 rfl
  · exact (requestTemplate_error_classification (fun _ => "t")
      ⟨0, true, "s", "h", "f"⟩ ⟨400, false, Json.str "value invalid"⟩ false true).2.1
      rfl (by decide) rfl
  · exact (requestTemplate_error_classification (fun _ => "t")
      ⟨0, true, "s", "h", "f"⟩ ⟨500, false, Json.str "boom"⟩ false true).2.2
      rfl (by decide) (by decide)

/-- Counterexample to C2 as stated: with `onlyOneEvent = true` but
`flags.getValue` clear on entry, a tick whose state-changed and
sense-changed flags are both set executes two sync actions (push state
and push sensors): the one-event cap only suppresses an action when
`flags.getValue` is also set (or, for the get-value action itself, after
any prior event). -/
theorem onlyOneEvent_two_actions_counterexample :
    (polip_workflow_periodic_update
        ⟨true, false, 1000, 1000⟩
        ⟨RetCode.ok, RetCode.ok, RetCode.ok, RetCode.ok, RetCode.ok⟩
        ⟨true, true, false, false, RetCode.ok⟩
        ⟨0, 0⟩ 0).executed = [WAction.pushState, WAction.pushSense] ∧
    ¬ (polip_workflow_periodic_update
        ⟨true, false, 1000, 1000⟩
        ⟨RetCode.ok, RetCode.ok, RetCode.ok, RetCode.ok, RetCode.ok⟩
        ⟨true, true, false, false, RetCode.ok⟩
        ⟨0, 0⟩ 0).executed.length ≤ 1 := by
  decide

/-- Counterexample to C3 as stated: with `flags.getValue` set at the
start of the tick (and default `onlyOneEvent = false`), a pending
push-state request is issued before the get-value request — the
resynchronize action is evaluated last, it does not pre-empt the
ordinary actions. -/
theorem resync_not_preemptive_counterexample :
    (polip_workflow_periodic_update
        ⟨false, false, 1000, 1000⟩
        ⟨RetCode.ok, RetCode.ok, RetCode.ok, RetCode.ok, RetCode.ok⟩
        ⟨true, false, false, true, RetCode.ok⟩
        ⟨0, 0⟩ 0).executed = [WAction.pushState, WAction.getValue] ∧
    ordinaryIssuedBeforeGetValue
      (polip_workflow_periodic_update
        ⟨false, false, 1000, 1000⟩
        ⟨RetCode.ok, RetCode.ok, RetCode.ok, RetCode.ok, RetCode.ok⟩
        ⟨true, false, false, true, RetCode.ok⟩
        ⟨0, 0⟩ 0).executed = true := by
  decide

theorem stepPushRPC_cases (p : WorkflowParams) (env : TickEnv) (t : TickState) :
    stepPushRPC p env t = t ∨
    ((stepPushRPC p env t).eventCount = t.eventCount + 1 ∧
     (stepPushRPC p env t).executed = t.executed ++ [WAction.pushRPC] ∧
     (t.flags.getValue = true → (stepPushRPC p env t).flags.getValue = true)) := by
  unfold stepPushRPC
  split
  · right
    split
    · exact ⟨rfl, rfl, fun _ => rfl⟩
    · split
      · exact ⟨rfl, rfl, fun h => h⟩
      · exact ⟨rfl, rfl, fun h => h⟩
  · left; rfl

theorem stepPushState_cases (p : WorkflowParams) (env : TickEnv) (now : Nat) (t : TickState) :
    stepPushState p env now t = t ∨
    ((stepPushState p env now t).eventCount = t.eventCount + 1 ∧
     (stepPushState p env now t).executed = t.executed ++ [WAction.pushState] ∧
     (t.flags.getValue = true → (stepPushState p env now t).flags.getValue = true)) := by
  unfold stepPushState
  split
  · right
    split
    · exact ⟨rfl, rfl, fun _ => rfl⟩
    · split
      · exact ⟨rfl, rfl, fun h => h⟩
      · exact ⟨rfl, rfl, fun h => h⟩
  · left; rfl

theorem stepPollState_cases (p : WorkflowParams) (env : TickEnv) (now : Nat) (t : TickState) :
    stepPollState p env now t = t ∨
    ((stepPollState p env now t).eventCount = t.eventCount + 1 ∧
     (stepPollState p env now t).executed = t.executed ++ [WAction.pollState] ∧
     (t.flags.getValue = true → (stepPollState p env now t).flags.getValue = true)) := by
  unfold stepPollState
  split
  · right
    split
    · exact ⟨rfl, rfl, fun _ => rfl⟩
    · split
      · exact ⟨rfl, rfl, fun h => h⟩
      · exact ⟨rfl, rfl, fun h => h⟩
  · left; rfl

theorem stepPushSense_cases (p : WorkflowParams) (env : TickEnv) (now : Nat) (t : TickState) :
    stepPushSense p env now t = t ∨
    ((stepPushSense p env now t).eventCount = t.eventCount + 1 ∧
     (stepPushSense p env now t).executed = t.executed ++ [WAction.pushSense] ∧
     (t.flags.getValue = true → (stepPushSense p env now t).flags.getValue = true)) := by
  unfold stepPushSense
  split
  · right
    split
    · exact ⟨rfl, rfl, fun _ => rfl⟩
    · split
      · exact ⟨rfl, rfl, fun h => h⟩
      · exact ⟨rfl, rfl, fun h => h⟩
  · left; rfl

theorem stepGetValue_cases (p : WorkflowParams) (env : TickEnv) (t : TickState) :
    stepGetValue p env t = t ∨
    ((stepGetValue p env t).executed = t.executed ++ [WAction.getValue] ∧
     (stepGetValue p env t).flags.getValue = false ∧
     (env.getValueResult ≠ RetCode.ok →
       (stepGetValue p env t).flags.error = env.getValueResult ∧
       (stepGetValue p env t).retStatus = RetCode.errorWorkflow)) := by
  unfold stepGetValue
  split
  · right
    split
    · exact ⟨rfl, rfl, fun _ => ⟨rfl, rfl⟩⟩
    · rename_i hok
      exact ⟨rfl, rfl, fun hne => absurd hne hok⟩
  · left; rfl

theorem stepPushRPC_frozen (p : WorkflowParams) (env : TickEnv) (t : TickState)
    (h1 : p.onlyOneEvent = true) (h2 : t.flags.getValue = true)
    (h3 : 1 ≤ t.eventCount) :
    stepPushRPC p env t = t := by
  have hc : ¬ (t.flags.rpcChanged ∧
      ¬ (p.onlyOneEvent ∧ t.flags.getValue ∧ 1 ≤ t.eventCount)) := by
    simp [h1, h2, h3]
  unfold stepPushRPC
  exact if_neg hc

theorem stepPushState_frozen (p : WorkflowParams) (env : TickEnv) (now : Nat) (t : TickState)
    (h1 : p.onlyOneEvent = true) (h2 : t.flags.getValue = true)
    (h3 : 1 ≤ t.eventCount) :
    stepPushState p env now t = t := by
  have hc : ¬ (t.flags.stateChanged ∧
      ¬ (p.onlyOneEvent ∧ t.flags.getValue ∧ 1 ≤ t.eventCount)) := by
    simp [h1, h2, h3]
  unfold stepPushState
  exact if_neg hc

theorem stepPollState_frozen (p : WorkflowParams) (env : TickEnv) (now : Nat) (t : TickState)
    (h1 : p.onlyOneEvent = true) (h2 : t.flags.getValue = true)
    (h3 : 1 ≤ t.eventCount) :
    stepPollState p env now t = t := by
  have hc : ¬ (¬ t.flags.stateChanged ∧
      p.pollStateTimeThreshold ≤ usub32 now t.timers.pollTime ∧
      ¬ (p.onlyOneEvent ∧ t.flags.getValue ∧ 1 ≤ t.eventCount)) := by
    simp [h1, h2, h3]
  unfold stepPollState
  exact if_neg hc

theorem stepPushSense_frozen (p : WorkflowParams) (env : TickEnv) (now : Nat) (t : TickState)
    (h1 : p.onlyOneEvent = true) (h2 : t.flags.getValue = true)
    (h3 : 1 ≤ t.eventCount) :
    stepPushSense p env now t = t := by
  have hc : ¬ ((t.flags.senseChanged ∨
        (p.pushSensePeriodic ∧ p.pushSenseTimeThreshold ≤ usub32 now t.timers.senseTime)) ∧
      ¬ (p.onlyOneEvent ∧ t.flags.getValue ∧ 1 ≤ t.eventCount)) := by
    simp [h1, h2, h3]
  unfold stepPushSense
  exact if_neg hc

theorem stepGetValue_frozen (p : WorkflowParams) (env : TickEnv) (t : TickState)
    (h1 : p.onlyOneEvent = true) (h3 : 1 ≤ t.eventCount) :
    stepGetValue p env t = t := by
  have hc : ¬ (t.flags.getValue ∧ ¬ (p.onlyOneEvent ∧ 1 ≤ t.eventCount)) := by
    simp [h1, h3]
  unfold stepGetValue
  exact if_neg hc

/-- Amended C2: with `params.onlyOneEvent` set, at most one sync action
executes per tick provided `flags.getValue` is set at tick entry — the
one-event cap suppresses ordinary actions only in combination with a
pending resync, and suppresses the get-value action itself once any
other action has run.  (The unconditional form of the claim is refuted
by `onlyOneEvent_two_actions_counterexample`.) -/
theorem onlyOneEvent_resync_pending_caps_tick
    (p : WorkflowParams) (env : TickEnv) (flags : WorkflowFlags)
    (timers : WorkflowTimers) (now : Nat)
    (h1 : p.onlyOneEvent = true) (h2 : flags.getValue = true) :
    (polip_workflow_periodic_update p env flags timers now).executed.length ≤ 1 := by
  unfold polip_workflow_periodic_update
  rcases stepPushRPC_cases p env ⟨flags, timers, 0, RetCode.ok, []⟩ with hA | ⟨ha1, ha2, ha3⟩
  · rw [hA]
    rcases stepPushState_cases p env now ⟨flags, timers, 0, RetCode.ok, []⟩ with hB | ⟨hb1, hb2, hb3⟩
    · rw [hB]
      rcases stepPollState_cases p env now ⟨flags, timers, 0, RetCode.ok, []⟩ with hC | ⟨hc1, hc2, hc3⟩
      · rw [hC]
        rcases stepPushSense_cases p env now ⟨flags, timers, 0, RetCode.ok, []⟩ with hD | ⟨hd1, hd2, hd3⟩
        · rw [hD]
          rcases stepGetValue_cases p env ⟨flags, timers, 0, RetCode.ok, []⟩ with hE | ⟨he1, he2, he3⟩
          · rw [hE]; simp
          · rw [he1]; simp
        · rw [stepGetValue_frozen p env _ h1 (by rw [hd1])]
          rw [hd2]; simp
      · rw [stepPushSense_frozen p env now _ h1 (hc3 h2) (by rw [hc1])]
        rw [stepGetValue_frozen p env _ h1 (by rw [hc1])]
        rw [hc2]; simp
    · rw [stepPollState_frozen p env now _ h1 (hb3 h2) (by rw [hb1])]
      rw [stepPushSense_frozen p env now _ h1 (hb3 h2) (by rw [hb1])]
      rw [stepGetValue_frozen p env _ h1 (by rw [hb1])]
      rw [hb2]; simp
  · rw [stepPushState_frozen p env now _ h1 (ha3 h2) (by rw [ha1])]
    rw [stepPollState_frozen p env now _ h1 (ha3 h2) (by rw [ha1])]
    rw [stepPushSense_frozen p env now _ h1 (ha3 h2) (by rw [ha1])]
    rw [stepGetValue_frozen p env _ h1 (by rw [ha1])]
    rw [ha2]; simp

/-- Witness for the amended C2 at a concrete tick: one-event cap with a
pending resync and a pending state push executes at most one action. -/
theorem onlyOneEvent_resync_pending_caps_tick_witness :
    (polip_workflow_periodic_update
        ⟨true, false, 1000, 1000⟩
        ⟨RetCode.ok, RetCode.ok, RetCode.ok, RetCode.ok, RetCode.ok⟩
        ⟨true, true, false, true, RetCode.ok⟩
        ⟨0, 0⟩ 0).executed.length ≤ 1 :=
  onlyOneEvent_resync_pending_caps_tick
    ⟨true, false, 1000, 1000⟩
    ⟨RetCode.ok, RetCode.ok, RetCode.ok, RetCode.ok, RetCode.ok⟩
    ⟨true, true, false, true, RetCode.ok⟩
    ⟨0, 0⟩ 0 rfl rfl

theorem stepPushRPC_no_getValue_exec (p : WorkflowParams) (env : TickEnv) (t : TickState)
    (h : WAction.getValue ∉ t.executed) :
    WAction.getValue ∉ (stepPushRPC p env t).executed := by
  rcases stepPushRPC_cases p env t with he | ⟨_, he2, _⟩
  · rw [he]; exact h
  · rw [he2]; simp [h]

theorem stepPushState_no_getValue_exec (p : WorkflowParams) (env : TickEnv) (now : Nat)
    (t : TickState) (h : WAction.getValue ∉ t.executed) :
    WAction.getValue ∉ (stepPushState p env now t).executed := by
  rcases stepPushState_cases p env now t with he | ⟨_, he2, _⟩
  · rw [he]; exact h
  · rw [he2]; simp [h]

theorem stepPollState_no_getValue_exec (p : WorkflowParams) (env : TickEnv) (now : Nat)
    (t : TickState) (h : WAction.getValue ∉ t.executed) :
    WAction.getValue ∉ (stepPollState p env now t).executed := by
  rcases stepPollState_cases p env now t with he | ⟨_, he2, _⟩
  · rw [he]; exact h
  · rw [he2]; simp [h]

theorem stepPushSense_no_getValue_exec (p : WorkflowParams) (env : TickEnv) (now : Nat)
    (t : TickState) (h : WAction.getValue ∉ t.executed) :
    WAction.getValue ∉ (stepPushSense p env now t).executed := by
  rcases stepPushSense_cases p env now t with he | ⟨_, he2, _⟩
  · rw [he]; exact h
  · rw [he2]; simp [h]

/-- Amended C3: the resynchronize action does not pre-empt the ordinary
actions — it is evaluated last.  Whenever a tick issues the get-value
request, that request is the final one of the tick; any push-state,
poll-state or push-sensors request of the same tick was issued before
it.  (The claimed pre-emption is refuted by
`resync_not_preemptive_counterexample`.) -/
theorem getValue_request_is_last
    (p : WorkflowParams) (env : TickEnv) (flags : WorkflowFlags)
    (timers : WorkflowTimers) (now : Nat)
    (h : WAction.getValue ∈ (polip_workflow_periodic_update p env flags timers now).executed) :
    (polip_workflow_periodic_update p env flags timers now).executed.getLast?
      = some WAction.getValue := by
  unfold polip_workflow_periodic_update at h ⊢
  have h0 : WAction.getValue ∉ (⟨flags, timers, 0, RetCode.ok, []⟩ : TickState).executed := by
    simp
  have h4 := stepPushSense_no_getValue_exec p env now _
    (stepPollState_no_getValue_exec p env now _
      (stepPushState_no_getValue_exec p env now _
        (stepPushRPC_no_getValue_exec p env _ h0)))
  rcases stepGetValue_cases p env
      (stepPushSense p env now (stepPollState p env now (stepPushState p env now
        (stepPushRPC p env ⟨flags, timers, 0, RetCode.ok, []⟩)))) with he | ⟨he1, _, _⟩
  · rw [he] at h; exact absurd h h4
  · rw [he1]
    simp

/-- Witness for the amended C3: a concrete tick that issues both a
push-state and a get-value request ends its trace with get-value. -/
theorem getValue_request_is_last_witness :
    (polip_workflow_periodic_update
        ⟨false, false, 1000, 1000⟩
        ⟨RetCode.ok, RetCode.ok, RetCode.ok, RetCode.ok, RetCode.ok⟩
        ⟨true, false, false, true, RetCode.ok⟩
        ⟨0, 0⟩ 0).executed.getLast? = some WAction.getValue :=
  getValue_request_is_last
    ⟨false, false, 1000, 1000⟩
    ⟨RetCode.ok, RetCode.ok, RetCode.ok, RetCode.ok, RetCode.ok⟩
    ⟨true, false, false, true, RetCode.ok⟩
    ⟨0, 0⟩ 0 (by decide)

/-- C10: `polip_workflow_periodic_update` clears `flags.getValue`
before issuing the get-value request, so whenever the get-value action
runs in a tick — in particular when its exchange fails — the tick ends
with `flags.getValue = false`; a failure is recorded in `flags.error`
and makes the call return `POLIP_ERROR_WORKFLOW`, but the
resynchronization is not rearmed. -/
theorem getValue_flag_cleared_when_resync_runs
    (p : WorkflowParams) (env : TickEnv) (flags : WorkflowFlags)
    (timers : WorkflowTimers) (now : Nat)
    (h : WAction.getValue ∈ (polip_workflow_periodic_update p env flags timers now).executed) :
    (polip_workflow_periodic_update p env flags timers now).flags.getValue = false ∧
    (env.getValueResult ≠ RetCode.ok →
      (polip_workflow_periodic_update p env flags timers now).flags.error = env.getValueResult ∧
      (polip_workflow_periodic_update p env flags timers now).retStatus
        = RetCode.errorWorkflow) := by
  unfold polip_workflow_periodic_update at h ⊢
  have h0 : WAction.getValue ∉ (⟨flags, timers, 0, RetCode.ok, []⟩ : TickState).executed := by
    simp
  have h4 := stepPushSense_no_getValue_exec p env now _
    (stepPollState_no_getValue_exec p env now _
      (stepPushState_no_getValue_exec p env now _
        (stepPushRPC_no_getValue_exec p env _ h0)))
  rcases stepGetValue_cases p env
      (stepPushSense p env now (stepPollState p env now (stepPushState p env now
        (stepPushRPC p env ⟨flags, timers, 0, RetCode.ok, []⟩)))) with he | ⟨_, he2, he3⟩
  · rw [he] at h; exact absurd h h4
  · exact ⟨he2, he3⟩

/-- Witness for C10: a concrete tick whose get-value exchange fails
with a server error still ends with `flags.getValue = false` and the
error recorded. -/
theorem getValue_flag_cleared_when_resync_runs_witness :
    (polip_workflow_periodic_update
        ⟨false, false, 1000, 1000⟩
        ⟨RetCode.ok, RetCode.ok, RetCode.ok, RetCode.ok, RetCode.errorServerError⟩
        ⟨false, false, false, true, RetCode.ok⟩
        ⟨0, 0⟩ 0).flags.getValue = false ∧
    (polip_workflow_periodic_update
        ⟨false, false, 1000, 1000⟩
        ⟨RetCode.ok, RetCode.ok, RetCode.ok, RetCode.ok, RetCode.errorServerError⟩
        ⟨false, false, false, true, RetCode.ok⟩
        ⟨0, 0⟩ 0).flags.error = RetCode.errorServerError := by
  have h := getValue_flag_cleared_when_resync_runs
    ⟨false, false, 1000, 1000⟩
    ⟨RetCode.ok, RetCode.ok, RetCode.ok, RetCode.ok, RetCode.errorServerError⟩
    ⟨false, false, false, true, RetCode.ok⟩
    ⟨0, 0⟩ 0 (by decide)
  exact ⟨h.1, (h.2 (by decide)).1⟩

theorem new_rpc_succeeds (st : RpcWorkflowState) (status : RpcStatus)
    (uuid ty : String) (a : RPC) (rest : List RPC)
    (hu : uuid.length + 1 ≤ POLIP_RPC_TYPE_BUFFER_SIZE)
    (ht : ty.length + 1 ≤ POLIP_RPC_TYPE_BUFFER_SIZE)
    (hfree : st.free = a :: rest) :
    polip_rpc_workflow_new_rpc st status uuid ty =
      some ((⟨status, uuid, ty, status, st.masterCheckedBit⟩ : RPC),
        { st with
            free := rest,
            active := (⟨status, uuid, ty, status, st.masterCheckedBit⟩ : RPC) :: st.active,
            numActiveRPCs := st.numActiveRPCs + 1 }) := by
  unfold polip_rpc_workflow_new_rpc
  rw [hfree]
  dsimp only
  rw [if_neg (by omega)]

theorem free_rpc_succeeds (st : RpcWorkflowState) (i : Nat)
    (h : i < st.active.length) :
    polip_rpc_workflow_free_rpc st i =
      (true, { st with
          active := st.active.eraseIdx i,
          free := st.active.get ⟨i, h⟩ :: st.free,
          numActiveRPCs := st.numActiveRPCs - 1 }) := by
  obtain ⟨sp, an, na, act, fr, mb⟩ := st
  cases act with
  | nil => simp at h
  | cons a l =>
    unfold polip_rpc_workflow_free_rpc
    rw [dif_pos h]

theorem acquireRepeat_drains (status : RpcStatus) (uuid ty : String)
    (hu : uuid.length + 1 ≤ POLIP_RPC_TYPE_BUFFER_SIZE)
    (ht : ty.length + 1 ≤ POLIP_RPC_TYPE_BUFFER_SIZE) :
    ∀ (n : Nat) (st : RpcWorkflowState), st.free.length = n →
      ∃ st', acquireRepeat status uuid ty n st = some st' ∧
        st'.free = [] ∧ st'.numActiveRPCs = st.numActiveRPCs + n := by
  intro n
  induction n with
  | zero =>
    intro st hf
    exact ⟨st, rfl, List.length_eq_zero.mp hf, rfl⟩
  | succ n ih =>
    intro st hf
    cases hfree : st.free with
    | nil => rw [hfree] at hf; simp at hf
    | cons a rest =>
      rw [hfree] at hf
      have hr : rest.length = n := by simpa using hf
      have hnew := new_rpc_succeeds st status uuid ty a rest hu ht hfree
      obtain ⟨st', h1, h2, h3⟩ := ih
        { st with
            free := rest,
            active := (⟨status, uuid, ty, status, st.masterCheckedBit⟩ : RPC) :: st.active,
            numActiveRPCs := st.numActiveRPCs + 1 } hr
      have h3' : st'.numActiveRPCs = st.numActiveRPCs + 1 + n := h3
      refine ⟨st', ?_, h2, by omega⟩
      simp only [acquireRepeat, hnew]
      exact h1

/-- C5: arena acquisition/release discipline for well-formed workflow
states with capacity `capacity` and well-formed uuid/type arguments:
(1) `polip_rpc_workflow_new_rpc` returns NULL whenever
`numActiveRPCs = capacity` (the free list is then empty); (2) from a
freshly initialized workflow, `capacity` acquisitions all succeed,
leave `numActiveRPCs = capacity`, and the next acquisition returns
NULL; (3) `polip_rpc_workflow_free_rpc` on any record of the active
list succeeds and decrements `numActiveRPCs`, after which an
acquisition succeeds and restores the original `numActiveRPCs`. -/
theorem rpc_arena_capacity_properties (status : RpcStatus) (uuid ty : String)
    (capacity : Nat)
    (hu : uuid.length + 1 ≤ POLIP_RPC_TYPE_BUFFER_SIZE)
    (ht : ty.length + 1 ≤ POLIP_RPC_TYPE_BUFFER_SIZE) :
    (∀ st : RpcWorkflowState, st.wf capacity → st.numActiveRPCs = capacity →
      polip_rpc_workflow_new_rpc st status uuid ty = none) ∧
    (∃ st', acquireRepeat status uuid ty capacity
        ( polip_rpc_workflow_initialize capacity) = some st' ∧
      st'.numActiveRPCs = capacity ∧
      polip_rpc_workflow_new_rpc st' status uuid ty = none) ∧
    (∀ (st : RpcWorkflowState) (i : Nat), st.wf capacity → i < st.active.length →
      (polip_rpc_workflow_free_rpc st i).1 = true ∧
      (polip_rpc_workflow_free_rpc st i).2.numActiveRPCs = st.numActiveRPCs - 1 ∧
      ∃ rst, polip_rpc_workflow_new_rpc (polip_rpc_workflow_free_rpc st i).2
          status uuid ty = some rst ∧
        rst.2.numActiveRPCs = st.numActiveRPCs) := by
  have hempty : ∀ st : RpcWorkflowState, st.free = [] →
      polip_rpc_workflow_new_rpc st status uuid ty = none := by
    intro st hfree
    unfold polip_rpc_workflow_new_rpc
    rw [hfree]
  refine ⟨?_, ?_, ?_⟩
  · intro st hwf hnum
    have h1 := hwf.1
    have h2 := hwf.2
    have hlen : st.free.length = 0 := by omega
    exact hempty st (List.length_eq_zero.mp hlen)
  · have hinit : ( polip_rpc_workflow_initialize capacity).free.length = capacity := by
      simp [ polip_rpc_workflow_initialize]
    obtain ⟨st', h1, h2, h3⟩ :=
      acquireRepeat_drains status uuid ty hu ht capacity
        ( polip_rpc_workflow_initialize capacity) hinit
    have h3' : st'.numActiveRPCs = 0 + capacity := h3
    exact ⟨st', h1, by omega, hempty st' h2⟩
  · intro st i hwf hi
    have hfr := free_rpc_succeeds st i hi
    have hnum1 : 1 ≤ st.numActiveRPCs := by
      have h1 := hwf.1
      omega
    refine ⟨by rw [hfr], by rw [hfr], ?_⟩
    have hnew := new_rpc_succeeds (polip_rpc_workflow_free_rpc st i).2 status uuid ty
      (st.active.get ⟨i, hi⟩) st.free hu ht (by rw [hfr])
    refine ⟨_, hnew, ?_⟩
    have : (polip_rpc_workflow_free_rpc st i).2.numActiveRPCs = st.numActiveRPCs - 1 := by
      rw [hfr]
    simp only [this]
    omega

/-- Witness for C5 at capacity 1: a full well-formed arena rejects a
further acquisition. -/
theorem rpc_arena_capacity_witness :
    polip_rpc_workflow_new_rpc
      ⟨false, true, 1, [⟨RpcStatus.pending, "x", "t", RpcStatus.pending, false⟩], [], false⟩
      RpcStatus.pending "u" "t" = none :=
  (rpc_arena_capacity_properties RpcStatus.pending "u" "t" 1
      (by decide) (by decide)).1
    ⟨false, true, 1, [⟨RpcStatus.pending, "x", "t", RpcStatus.pending, false⟩], [], false⟩
    ⟨rfl, rfl⟩ rfl

/-- C9: `polip_rpc_workflow_new_rpc` returns NULL — leaving the
workflow state untouched and copying nothing into a record — whenever
`strlen(uuid)+1` or `strlen(type)+1` exceeds
`POLIP_RPC_TYPE_BUFFER_SIZE` (50); note the uuid is guarded against the
type-buffer constant (which equals `POLIP_RPC_UUID_BUFFER_SIZE`, also
50). -/
theorem new_rpc_rejects_oversized (st : RpcWorkflowState) (status : RpcStatus)
    (uuid ty : String)
    (h : POLIP_RPC_TYPE_BUFFER_SIZE < uuid.length + 1 ∨
      POLIP_RPC_TYPE_BUFFER_SIZE < ty.length + 1) :
    polip_rpc_workflow_new_rpc st status uuid ty = none := by
  unfold polip_rpc_workflow_new_rpc
  cases hfree : st.free with
  | nil => rfl
  | cons a rest => exact if_pos h

/-- Witness for C9: a 50-character uuid (needing 51 bytes) is
rejected even with free capacity available. -/
theorem new_rpc_rejects_oversized_witness :
    polip_rpc_workflow_new_rpc
      ⟨false, true, 0, [], [RPC.initial], false⟩ RpcStatus.pending
      "aaaaaaaaaaaaaaaaaaaaaaaaaaaaaaaaaaaaaaaaaaaaaaaaaa" "t" = none :=
  new_rpc_rejects_oversized
    ⟨false, true, 0, [], [RPC.initial], false⟩ RpcStatus.pending
    "aaaaaaaaaaaaaaaaaaaaaaaaaaaaaaaaaaaaaaaaaaaaaaaaaa" "t"
    (Or.inl (by decide))

theorem periodicLoop_false_spec (hooks : RpcHooks) (pushResp : RPC → RetCode)
    (mb : Bool) :
    ∀ (l : List RPC) (acc : LoopAcc),
      (periodicLoop hooks pushResp mb false l acc).1 = [] ∧
      (periodicLoop hooks pushResp mb false l acc).2.kept
        = (l.filterMap fun e => (processEntry hooks pushResp mb e).kept).reverse
            ++ acc.kept := by
  intro l
  induction l with
  | nil => intro acc; exact ⟨rfl, by simp [periodicLoop]⟩
  | cons e rest ih =>
    intro acc
    simp only [periodicLoop]
    rw [if_neg (by simp)]
    refine ⟨(ih _).1, ?_⟩
    rw [(ih _).2]
    cases hk : (processEntry hooks pushResp mb e).kept with
    | none => simp [List.filterMap_cons, hk]
    | some e1 => simp [List.filterMap_cons, hk]

theorem rpc_periodic_update_active (hooks : RpcHooks) (pushResp : RPC → RetCode)
    (st : RpcWorkflowState) :
    (polip_rpc_workflow_periodic_update hooks pushResp false st).1.active
      = st.active.filterMap
          (fun e => (processEntry hooks pushResp st.masterCheckedBit e).kept) := by
  obtain ⟨h1, h2⟩ := periodicLoop_false_spec hooks pushResp st.masterCheckedBit
    st.active ⟨[], [], 0, RetCode.ok⟩
  unfold polip_rpc_workflow_periodic_update
  dsimp only
  rw [h1, h2]
  simp

theorem processEntry_kept_uuid (hooks : RpcHooks) (pushResp : RPC → RetCode)
    (mb : Bool) (e e' : RPC)
    (h : (processEntry hooks pushResp mb e).kept = some e') :
    e'.uuid = e.uuid := by
  simp only [processEntry, pushStep] at h
  repeat' split at h
  all_goals simp_all
  all_goals (subst h; rfl)

theorem pairwise_uuid_inj (l : List RPC)
    (hd : l.Pairwise fun a b => a.uuid ≠ b.uuid) :
    ∀ a ∈ l, ∀ b ∈ l, a.uuid = b.uuid → a = b := by
  induction l with
  | nil => intro a ha; exact absurd ha (List.not_mem_nil a)
  | cons x xs ih =>
    obtain ⟨hx, hxs⟩ := List.pairwise_cons.mp hd
    intro a ha b hb heq
    rcases List.mem_cons.mp ha with rfl | ha1 <;>
      rcases List.mem_cons.mp hb with rfl | hb1
    · rfl
    · exact absurd heq (hx b hb1)
    · exact absurd heq.symm (hx a ha1)
    · exact ih hxs a ha1 b hb1 heq

theorem processEntry_canceled_rejected (hooks : RpcHooks) (pushResp : RPC → RetCode)
    (mb : Bool) (e : RPC)
    (hch : e.checked = mb) (hst : e.status = RpcStatus.canceled)
    (hnx : e.nextStatus = RpcStatus.rejected)
    (hp : pushResp { e with status := e.nextStatus } = RetCode.ok) :
    (processEntry hooks pushResp mb e).kept
      = some { e with status := RpcStatus.pending, nextStatus := RpcStatus.pending } := by
  unfold processEntry
  rw [if_neg (by simp [hch])]
  rw [if_pos (by rw [hst, hnx]; decide)]
  unfold pushStep
  dsimp only
  rw [if_pos hp, if_pos hst, if_pos hnx]

theorem processEntry_canceled_ack (hooks : RpcHooks) (pushResp : RPC → RetCode)
    (mb : Bool) (e : RPC)
    (hch : e.checked = mb) (hst : e.status = RpcStatus.canceled)
    (hnx : e.nextStatus = RpcStatus.acknowledged)
    (hp : pushResp { e with status := e.nextStatus } = RetCode.ok) :
    (processEntry hooks pushResp mb e).kept = none := by
  unfold processEntry
  rw [if_neg (by simp [hch])]
  rw [if_pos (by rw [hst, hnx]; decide)]
  unfold pushStep
  dsimp only
  rw [if_pos hp, if_pos hst, if_neg (by rw [hnx]; decide), if_pos hnx]

theorem processEntry_terminal (hooks : RpcHooks) (pushResp : RPC → RetCode)
    (mb : Bool) (e : RPC)
    (hch : e.checked = mb) (hst : e.status ≠ RpcStatus.canceled)
    (hne : e.status ≠ e.nextStatus)
    (hnx : e.nextStatus = RpcStatus.success ∨ e.nextStatus = RpcStatus.failure ∨
      e.nextStatus = RpcStatus.rejected)
    (hp : pushResp { e with status := e.nextStatus } = RetCode.ok) :
    (processEntry hooks pushResp mb e).kept = none := by
  unfold processEntry
  rw [if_neg (by simp [hch])]
  rw [if_pos hne]
  unfold pushStep
  dsimp only
  rw [if_pos hp, if_neg hst, if_pos hnx]

/-- C6: post-push transitions of `polip_rpc_workflow_periodic_update`
in a tick where every record was seen by the last poll and every status
push succeeds: a record whose `canceled` status pushes `rejected` stays
active with status and nextStatus reset to `pending`; a record whose
`canceled` status pushes `acknowledged` is freed; and a record pushed
to a terminal `success`/`failure`/`rejected` status from a non-canceled
prior state is freed — in the latter two cases no record with its uuid
remains in the active set after the call. -/
theorem rpc_post_push_transitions (hooks : RpcHooks) (pushResp : RPC → RetCode)
    (st : RpcWorkflowState) (entry : RPC)
    (hall : ∀ e ∈ st.active, e.checked = st.masterCheckedBit)
    (hok : ∀ e, pushResp e = RetCode.ok)
    (hmem : entry ∈ st.active)
    (hdist : st.active.Pairwise fun a b => a.uuid ≠ b.uuid) :
    ((entry.status = RpcStatus.canceled ∧ entry.nextStatus = RpcStatus.rejected) →
      ∃ e' ∈ (polip_rpc_workflow_periodic_update hooks pushResp false st).1.active,
        e'.uuid = entry.uuid ∧ e'.status = RpcStatus.pending ∧
          e'.nextStatus = RpcStatus.pending) ∧
    ((entry.status = RpcStatus.canceled ∧ entry.nextStatus = RpcStatus.acknowledged) →
      ∀ e' ∈ (polip_rpc_workflow_periodic_update hooks pushResp false st).1.active,
        e'.uuid ≠ entry.uuid) ∧
    ((entry.status ≠ RpcStatus.canceled ∧ entry.status ≠ entry.nextStatus ∧
        (entry.nextStatus = RpcStatus.success ∨ entry.nextStatus = RpcStatus.failure ∨
          entry.nextStatus = RpcStatus.rejected)) →
      ∀ e' ∈ (polip_rpc_workflow_periodic_update hooks pushResp false st).1.active,
        e'.uuid ≠ entry.uuid) := by
  have hact := rpc_periodic_update_active hooks pushResp st
  refine ⟨?_, ?_, ?_⟩
  · rintro ⟨h1, h2⟩
    have hk := processEntry_canceled_rejected hooks pushResp st.masterCheckedBit entry
      (hall entry hmem) h1 h2 (hok _)
    refine ⟨{ entry with status := RpcStatus.pending, nextStatus := RpcStatus.pending },
      ?_, rfl, rfl, rfl⟩
    rw [hact]
    exact List.mem_filterMap.mpr ⟨entry, hmem, hk⟩
  · rintro ⟨h1, h2⟩ e' he' heq
    rw [hact] at he'
    obtain ⟨a, ha, hfa⟩ := List.mem_filterMap.mp he'
    have hu : e'.uuid = a.uuid := processEntry_kept_uuid _ _ _ _ _ hfa
    have haeq : a = entry :=
      pairwise_uuid_inj st.active hdist a ha entry hmem (by rw [← hu, heq])
    subst haeq
    have hnone := processEntry_canceled_ack hooks pushResp st.masterCheckedBit a
      (hall a ha) h1 h2 (hok _)
    rw [hnone] at hfa
    exact Option.noConfusion hfa
  · rintro ⟨h1, h2, h3⟩ e' he' heq
    rw [hact] at he'
    obtain ⟨a, ha, hfa⟩ := List.mem_filterMap.mp he'
    have hu : e'.uuid = a.uuid := processEntry_kept_uuid _ _ _ _ _ hfa
    have haeq : a = entry :=
      pairwise_uuid_inj st.active hdist a ha entry hmem (by rw [← hu, heq])
    subst haeq
    have hnone := processEntry_terminal hooks pushResp st.masterCheckedBit a
      (hall a ha) h1 h2 h3 (hok _)
    rw [hnone] at hfa
    exact Option.noConfusion hfa

/-- Witness for C6: a canceled record that pushes `rejected` reappears
as pending/pending in the active set. -/
theorem rpc_post_push_transitions_witness :
    ∃ e' ∈ (polip_rpc_workflow_periodic_update ⟨none⟩ (fun _ => RetCode.ok) false
        ⟨false, true, 1,
          [⟨RpcStatus.canceled, "a", "t", RpcStatus.rejected, true⟩], [],
          true⟩).1.active,
      e'.uuid = "a" ∧ e'.status = RpcStatus.pending ∧
        e'.nextStatus = RpcStatus.pending :=
  (rpc_post_push_transitions ⟨none⟩ (fun _ => RetCode.ok)
    ⟨false, true, 1, [⟨RpcStatus.canceled, "a", "t", RpcStatus.rejected, true⟩], [], true⟩
    ⟨RpcStatus.canceled, "a", "t", RpcStatus.rejected, true⟩
    (by decide) (fun _ => rfl) (by decide) (by decide)).1 ⟨rfl, rfl⟩

theorem processEntry_mismatch_nohook (pushResp : RPC → RetCode)
    (mb : Bool) (e : RPC) (hmis : e.checked ≠ mb) :
    processEntry ⟨none⟩ pushResp mb e
      = ⟨none, some e, 1, some RetCode.errorWorkflow⟩ := by
  unfold processEntry
  rw [if_pos hmis]

theorem processEntry_mismatch_hook_true (pushResp : RPC → RetCode)
    (f : RPC → Bool) (mb : Bool) (e : RPC)
    (hmis : e.checked ≠ mb) (hf : f e = true) :
    processEntry ⟨some f⟩ pushResp mb e = ⟨none, some e, 1, none⟩ := by
  unfold processEntry
  rw [if_pos hmis]
  dsimp only
  rw [if_pos hf]

theorem processEntry_mismatch_hook_false (pushResp : RPC → RetCode)
    (f : RPC → Bool) (mb : Bool) (e : RPC)
    (hmis : e.checked ≠ mb) (hf : f e = false)
    (heq : e.status = e.nextStatus) :
    processEntry ⟨some f⟩ pushResp mb e
      = ⟨some { e with checked := mb }, none, 1, none⟩ := by
  unfold processEntry
  rw [if_pos hmis]
  dsimp only
  rw [if_neg (by simp [hf]), if_neg (by simp [heq])]

/-- Amended C7: for an active record whose checked bit disagrees with
`masterCheckedBit` after a poll: with no `shouldDeleteExtraRPC` hook
configured the record is freed and the loop code is set to
`POLIP_ERROR_WORKFLOW` at that record (the call returns that code only
if no later status push of the same call overwrites it — see
`rpc_unchecked_error_overwritten_counterexample`); with a hook that
returns true the record is freed and no error code is raised; with a
hook that returns false (and no status change pending) the record stays
active with its checked bit realigned. -/
theorem rpc_unchecked_record_disposition (hooks : RpcHooks)
    (pushResp : RPC → RetCode) (st : RpcWorkflowState) (entry : RPC)
    (hmem : entry ∈ st.active)
    (hdist : st.active.Pairwise fun a b => a.uuid ≠ b.uuid)
    (hmis : entry.checked ≠ st.masterCheckedBit) :
    (hooks.shouldDeleteExtraRPC = none →
      (∀ e' ∈ (polip_rpc_workflow_periodic_update hooks pushResp false st).1.active,
        e'.uuid ≠ entry.uuid) ∧
      (processEntry hooks pushResp st.masterCheckedBit entry).code
        = some RetCode.errorWorkflow) ∧
    (∀ f, hooks.shouldDeleteExtraRPC = some f → f entry = true →
      (∀ e' ∈ (polip_rpc_workflow_periodic_update hooks pushResp false st).1.active,
        e'.uuid ≠ entry.uuid) ∧
      (processEntry hooks pushResp st.masterCheckedBit entry).code = none) ∧
    (∀ f, hooks.shouldDeleteExtraRPC = some f → f entry = false →
        entry.status = entry.nextStatus →
      ∃ e' ∈ (polip_rpc_workflow_periodic_update hooks pushResp false st).1.active,
        e'.uuid = entry.uuid ∧ e'.checked = st.masterCheckedBit ∧
          e'.status = entry.status ∧ e'.nextStatus = entry.nextStatus) := by
  have hact := rpc_periodic_update_active hooks pushResp st
  have habsent : (processEntry hooks pushResp st.masterCheckedBit entry).kept = none →
      ∀ e' ∈ (polip_rpc_workflow_periodic_update hooks pushResp false st).1.active,
        e'.uuid ≠ entry.uuid := by
    intro hnone e' he' heq
    rw [hact] at he'
    obtain ⟨a, ha, hfa⟩ := List.mem_filterMap.mp he'
    have hu : e'.uuid = a.uuid := processEntry_kept_uuid _ _ _ _ _ hfa
    have haeq : a = entry :=
      pairwise_uuid_inj st.active hdist a ha entry hmem (by rw [← hu, heq])
    subst haeq
    rw [hnone] at hfa
    exact Option.noConfusion hfa
  refine ⟨?_, ?_, ?_⟩
  · intro hhook
    obtain ⟨sde⟩ := hooks
    cases hhook
    have hpe := processEntry_mismatch_nohook pushResp st.masterCheckedBit entry hmis
    exact ⟨habsent (by rw [hpe]), by rw [hpe]⟩
  · intro f hhook hf
    obtain ⟨sde⟩ := hooks
    cases hhook
    have hpe := processEntry_mismatch_hook_true pushResp f st.masterCheckedBit entry hmis hf
    exact ⟨habsent (by rw [hpe]), by rw [hpe]⟩
  · intro f hhook hf heq
    obtain ⟨sde⟩ := hooks
    cases hhook
    have hpe := processEntry_mismatch_hook_false pushResp f st.masterCheckedBit entry hmis hf heq
    refine ⟨{ entry with checked := st.masterCheckedBit }, ?_, rfl, rfl, rfl, rfl⟩
    rw [hact]
    exact List.mem_filterMap.mpr ⟨entry, hmem, by rw [hpe]⟩

/-- Witness for the amended C7: a single stale record with no deletion
hook is removed and the reconciliation step raises
`POLIP_ERROR_WORKFLOW`. -/
theorem rpc_unchecked_record_disposition_witness :
    (∀ e' ∈ (polip_rpc_workflow_periodic_update ⟨none⟩ (fun _ => RetCode.ok) false
        ⟨false, true, 1,
          [⟨RpcStatus.pending, "a", "t", RpcStatus.pending, false⟩], [],
          true⟩).1.active,
      e'.uuid ≠ "a") ∧
    (processEntry ⟨none⟩ (fun _ => RetCode.ok) true
        ⟨RpcStatus.pending, "a", "t", RpcStatus.pending, false⟩).code
      = some RetCode.errorWorkflow :=
  (rpc_unchecked_record_disposition ⟨none⟩ (fun _ => RetCode.ok)
    ⟨false, true, 1, [⟨RpcStatus.pending, "a", "t", RpcStatus.pending, false⟩], [], true⟩
    ⟨RpcStatus.pending, "a", "t", RpcStatus.pending, false⟩
    (by decide) (by decide) (by decide)).1 rfl

/-- Counterexample to C7 as stated: the claim says that when the
deletion hook is absent the workflow reports `POLIP_ERROR_WORKFLOW`,
but the loop code is overwritten by later pushes — here the stale
record `"a"` is freed (code set to `POLIP_ERROR_WORKFLOW`), then the
status push of record `"b"` succeeds and the call returns `POLIP_OK`,
losing the error. -/
theorem rpc_unchecked_error_overwritten_counterexample :
    (polip_rpc_workflow_periodic_update ⟨none⟩ (fun _ => RetCode.ok) false
        ⟨false, true, 2,
          [⟨RpcStatus.pending, "a", "t", RpcStatus.pending, false⟩,
           ⟨RpcStatus.pending, "b", "t", RpcStatus.acknowledged, true⟩], [],
          true⟩).2 = RetCode.ok ∧
    RetCode.ok ≠ RetCode.errorWorkflow := by
  exact ⟨rfl, by decide⟩

theorem lookupField_setField_same (fs : List (String × Json)) (k : String) (v : Json) :
    lookupField (setField fs k v) k = some v := by
  induction fs with
  | nil => simp [setField, lookupField]
  | cons p rest ih =>
    obtain ⟨k1, v1⟩ := p
    by_cases h : k1 = k
    · subst h; simp [setField, lookupField]
    · simp [setField, lookupField, h, ih]

theorem lookupField_setField_diff (fs : List (String × Json)) (k k1 : String) (v : Json)
    (h : k1 ≠ k) :
    lookupField (setField fs k v) k1 = lookupField fs k1 := by
  induction fs with
  | nil => simp [setField, lookupField, Ne.symm h]
  | cons p rest ih =>
    obtain ⟨k2, w⟩ := p
    by_cases h2 : k2 = k
    · subst h2
      simp [setField, lookupField, Ne.symm h]
    · by_cases h3 : k2 = k1
      · subst h3; simp [setField, lookupField, h2]
      · simp [setField, lookupField, h2, h3, ih]

theorem Json.getKey_setKey_same (d : Json) (k : String) (v : Json) :
    (d.setKey k v).getKey k = v := by
  cases d <;> simp [Json.setKey, Json.getKey, lookupField_setField_same, lookupField]

theorem Json.getKey_setKey_diff (d : Json) (k k1 : String) (v : Json) (h : k1 ≠ k) :
    (d.setKey k v).getKey k1 = d.getKey k1 := by
  cases d <;>
    simp [Json.setKey, Json.getKey, lookupField_setField_diff _ _ _ _ h,
      lookupField, Ne.symm h]

theorem packRequest_getKey_rpc (tagFn : Json → String) (dev : Device) (doc : Json)
    (timestamp : String) (sv stg : Bool) :
    (packRequest tagFn dev doc timestamp sv stg).getKey "rpc" = doc.getKey "rpc" := by
  have hs : ("rpc" : String) ≠ "serial" := by decide
  have hf : ("rpc" : String) ≠ "firmware" := by decide
  have hh : ("rpc" : String) ≠ "hardware" := by decide
  have ht : ("rpc" : String) ≠ "timestamp" := by decide
  have hv : ("rpc" : String) ≠ "value" := by decide
  have htag : ("rpc" : String) ≠ "tag" := by decide
  unfold packRequest
  by_cases h1 : sv <;> by_cases h2 : stg <;> by_cases h3 : dev.skipTagCheck <;>
    simp [h1, h2, h3, Json.getKey_setKey_diff _ _ _ _ hs,
      Json.getKey_setKey_diff _ _ _ _ hf, Json.getKey_setKey_diff _ _ _ _ hh,
      Json.getKey_setKey_diff _ _ _ _ ht, Json.getKey_setKey_diff _ _ _ _ hv,
      Json.getKey_setKey_diff _ _ _ _ htag]

/-- Amended C8: the polip-device.cpp variant of `polip_pushRPC`
auto-fills `rpc.timestamp` with the caller-supplied timestamp when the
field is absent and leaves it unchanged when present; the
polip-client.cpp variant of `polip_pushRPC` performs no autofill and
forwards the `rpc` object exactly as supplied (see
`pushRPC_client_no_autofill_counterexample`). -/
theorem pushRPC_device_timestamp_autofill (tagFn : Json → String) (dev : Device)
    (doc : Json) (timestamp : String)
    (hfields : pushRPCFieldsOk doc = true) :
    ((doc.getKey "rpc").containsKey "timestamp" = false →
      ∃ d, polip_pushRPC_sent_doc_device tagFn dev doc timestamp = some d ∧
        (d.getKey "rpc").getKey "timestamp" = Json.str timestamp) ∧
    ((doc.getKey "rpc").containsKey "timestamp" = true →
      ∃ d, polip_pushRPC_sent_doc_device tagFn dev doc timestamp = some d ∧
        d.getKey "rpc" = doc.getKey "rpc") := by
  constructor
  · intro habs
    refine ⟨packRequest tagFn dev
        (doc.setKey "rpc" ((doc.getKey "rpc").setKey "timestamp" (Json.str timestamp)))
        timestamp false false, ?_, ?_⟩
    · unfold polip_pushRPC_sent_doc_device
      rw [if_pos hfields, if_neg (by simp [habs])]
    · rw [packRequest_getKey_rpc, Json.getKey_setKey_same, Json.getKey_setKey_same]
  · intro hpres
    refine ⟨packRequest tagFn dev doc timestamp false false, ?_, ?_⟩
    · unfold polip_pushRPC_sent_doc_device
      rw [if_pos hfields, if_pos hpres]
    · exact packRequest_getKey_rpc tagFn dev doc timestamp false false

/-- Witness for the amended C8: a request with `rpc.uuid`,
`rpc.result`, `rpc.status` and no `rpc.timestamp` is sent with
`rpc.timestamp` set to the caller timestamp by the device variant. -/
theorem pushRPC_device_timestamp_autofill_witness :
    ∃ d, polip_pushRPC_sent_doc_device (fun _ => "t") ⟨0, true, "s", "h", "f"⟩
        (Json.obj [("rpc", Json.obj [("uuid", Json.str "u"), ("result", Json.null),
          ("status", Json.str "pending")])]) "TS" = some d ∧
      (d.getKey "rpc").getKey "timestamp" = Json.str "TS" :=
  (pushRPC_device_timestamp_autofill (fun _ => "t") ⟨0, true, "s", "h", "f"⟩
    (Json.obj [("rpc", Json.obj [("uuid", Json.str "u"), ("result", Json.null),
      ("status", Json.str "pending")])]) "TS" rfl).1 rfl

/-- Counterexample to C8 as stated: the polip-client.cpp variant of
`polip_pushRPC` — one of the two variants the claim covers — sends a
document whose `rpc` object still has no `timestamp` member when none
was supplied: no autofill happens there. -/
theorem pushRPC_client_no_autofill_counterexample :
    (polip_pushRPC_sent_doc_client (fun _ => "t") ⟨0, true, "s", "h", "f"⟩
        (Json.obj [("rpc", Json.obj [("uuid", Json.str "u"), ("result", Json.null),
          ("status", Json.str "pending")])]) "TS").map
      (fun d => (d.getKey "rpc").containsKey "timestamp") = some false := by
  rfl

end Polip
